import Mathlib

/-!
Verification of the go_boilerplate authentication subsystem.

This file is a shallow embedding of the auth core of the repository:
the password hasher (internal/shared/utils/hash.go, utils.IsHashed),
the user model hooks (internal/modules/user/model.go), the user service
(internal/modules/user/service.go), the session/OTP stores and the auth
orchestrator (internal/modules/auth/service.go), together with the token
codec.  Time is passed explicitly in seconds; the relational store and
the key-value store are modelled as explicit state (lists of rows);
fallible collaborator calls take an explicit success flag where a claim
depends on their failure.  Go errors created with errors.New are
distinguished by their message, so they are embedded as an inductive
type with one constructor per distinct message.
-/

namespace GoBoilerplate

/-- Error kinds of the auth core.  Each constructor corresponds to one
distinct errors.New message in the Go sources (user service, auth
service) or to a store-layer failure surfaced unchanged. -/
inductive AuthErr where
  | emailExists
  | roleNotFound
  | onlyUserOrAdminRoleOnCreate
  | defaultUserRoleNotFound
  | invalidCredentials
  | invalidEmailOrPassword
  | failedToLoadUserProfile
  | accountNotVerified
  | failedToGenerate2faCode
  | failedToSaveVerificationCode
  | invalidOrExpiredCode
  | invalidToken
  | invalidOrExpiredRefreshToken
  | sessionNotFoundOrBlocked
  | userNotFound
  | failedToLoadUserRole
  | storeFailure
deriving DecidableEq

/-- Configuration consumed by the auth service: the two security feature
flags (config.Security) and the JWT settings (config.JWT). -/
structure Config where
  emailVerificationEnabled : Bool
  twoFactorEnabled : Bool
  jwtSecret : String
  accessExpirySec : Nat
  refreshExpirySec : Nat
  issuer : String
deriving DecidableEq

/-- Role row (internal/modules/role/model.go): name, unique slug, and the
permission list (wildcard * means every permission). -/
structure Role where
  id : Nat
  name : String
  slug : String
  permissions : List String
deriving DecidableEq

/-- User row (internal/modules/user/model.go): uuid modelled as Nat with
0 standing for uuid.Nil, unique email, stored password hash, role foreign
key, and the is_verified flag (gorm default false). -/
structure User where
  id : Nat
  name : String
  email : String
  password : String
  roleId : Nat
  isVerified : Bool
deriving DecidableEq

/-- JWT claims carried by every issued token: user id, email, role slug
and permission list, plus the registered claims issuer, issued-at,
not-before and expires-at. -/
structure JWTClaims where
  userId : Nat
  email : String
  roleSlug : String
  permissions : List String
  issuer : String
  issuedAt : Nat
  notBefore : Nat
  expiresAt : Nat
deriving DecidableEq

/-- A signed bearer token.  In Go a token is the serialized string
header.claims.signature; serialization of distinct (alg, claims) pairs is
injective, so the string is modelled by its contents: the algorithm name,
the claims, and the HMAC signature value. -/
structure Token where
  alg : String
  claims : JWTClaims
  sig : Nat
deriving DecidableEq

/-- Deterministic accumulator over the characters of a string, used to
model HMAC digests of serialized data. -/
def stringCode (s : String) : Nat :=
  s.data.foldl (fun a c => a * 311 + c.toNat + 1) 7

/-- Deterministic accumulator over a list of strings. -/
def listCode (l : List String) : Nat :=
  l.foldl (fun a s => a * 131071 + stringCode s + 1) 3

/-- HMAC signature abstracted as a deterministic executable function of
the secret, the algorithm name and the serialized claims.  The spec fixes
the codec as a pure function of secret + claims + time, so determinism is
the specified behavior; the cryptographic strength of HMAC-SHA256 plays
no role in the claims proved here. -/
def macSign (secret alg : String) (c : JWTClaims) : Nat :=
  [stringCode secret, stringCode alg, c.userId, stringCode c.email, stringCode c.roleSlug,
   listCode c.permissions, stringCode c.issuer, c.issuedAt, c.notBefore, c.expiresAt].foldl
    (fun a n => a * 1000003 + n + 1) 11

/-- Modelled from the spec: the role-aware token codec (utils.JWTManager
with role slug and permission claims) is not among the provided sources:
the jwt.go present is a stale two-argument variant that cannot be the one
compiled into this program, since auth/service.go calls GenerateTokenPair
with four identity arguments and the middleware reads role_slug and
permissions claims.  Following the spec, both tokens of a pair carry
identical claims except expiry; issued-at and not-before are the signing
time, and the token is signed with HS256. -/
def tokenClaims (cfg : Config) (now : Nat) (userID : Nat) (email roleSlug : String)
    (permissions : List String) (expirySec : Nat) : JWTClaims :=
  { userId := userID, email := email, roleSlug := roleSlug, permissions := permissions,
    issuer := cfg.issuer, issuedAt := now, notBefore := now, expiresAt := now + expirySec }

/-- Sign the claims of one token with HS256. -/
def GenerateToken (cfg : Config) (now : Nat) (userID : Nat) (email roleSlug : String)
    (permissions : List String) (expirySec : Nat) : Token :=
  { alg := "HS256", claims := tokenClaims cfg now userID email roleSlug permissions expirySec,
    sig := macSign cfg.jwtSecret "HS256" (tokenClaims cfg now userID email roleSlug permissions expirySec) }

/-- Modelled from the spec: IssuePair issues an access token and a
refresh token with identical claims except the independently configured
expiries. -/
def GenerateTokenPair (cfg : Config) (now : Nat) (userID : Nat) (email roleSlug : String)
    (permissions : List String) : Token × Token :=
  (GenerateToken cfg now userID email roleSlug permissions cfg.accessExpirySec,
   GenerateToken cfg now userID email roleSlug permissions cfg.refreshExpirySec)

/-- Symmetric HMAC-family algorithm names accepted by validation. -/
def isHmacAlg (alg : String) : Bool :=
  alg == "HS256" || alg == "HS384" || alg == "HS512"

/-- Modelled from the spec: Validate fails if the algorithm is not in the
HMAC family, the signature is invalid, the expiry has passed, the token
is not yet valid, or the issuer mismatches; otherwise it returns the
embedded claims. -/
def ValidateToken (cfg : Config) (now : Nat) (t : Token) : Except AuthErr JWTClaims :=
  if isHmacAlg t.alg = false then .error .invalidToken
  else if t.sig ≠ macSign cfg.jwtSecret t.alg t.claims then .error .invalidToken
  else if t.claims.expiresAt ≤ now then .error .invalidToken
  else if now < t.claims.notBefore then .error .invalidToken
  else if t.claims.issuer ≠ cfg.issuer then .error .invalidToken
  else .ok t.claims

/-- Modelled from the spec: utils.RandomIntString, the OTP generator
called by Register, Login and the resend paths, is not among the provided
sources (only its callers are).  The spec fixes its contract: codes are
fixed-length numeric strings (6 digits) with leading zeros preserved,
drawn from a cryptographically unpredictable random source.  The random
source is abstracted as the parameter r; the result is the n-digit
decimal rendering of r taken modulo 10 ^ n. -/
def RandomIntString (n : Nat) (r : Nat) : String :=
  String.mk ((List.range n).map (fun i => Char.ofNat (48 + r / 10 ^ (n - 1 - i) % 10)))

/-- Go's strings.HasPrefix tests whether s begins with the bytes of pre;
it is embedded over the character lists of the strings. -/
def strStartsWith (s pre : String) : Bool :=
  pre.data.isPrefixOf s.data

/-- IsHashed checks if a string is a bcrypt hash (utils.IsHashed in
shared utils): it starts with the version marker $2a$, $2b$ or $2y$. -/
def IsHashed (password : String) : Bool :=
  strStartsWith password "$2a$" || strStartsWith password "$2b$" || strStartsWith password "$2y$"

/-- HashPassword (utils.HashPassword) wraps bcrypt.GenerateFromPassword
with cost 10.  The external bcrypt digest is abstracted as a
deterministic function of the input that keeps the documented output
format: the result always begins with the $2a$ version prefix and the
cost, so IsHashed recognizes every produced hash. -/
def HashPassword (password : String) : String :=
  "$2a$10$" ++ password

/-- ComparePassword (utils.ComparePassword) wraps
bcrypt.CompareHashAndPassword, which succeeds exactly when the hash was
derived from the password; under the deterministic digest model this is
hash equality. -/
def ComparePassword (hashedPassword password : String) : Bool :=
  hashedPassword == HashPassword password

/-- User.hashPassword (model.go): hash only a non-empty password that is
not already in bcrypt hash format. -/
def hashPassword (p : String) : String :=
  if p != "" && !IsHashed p then HashPassword p else p

/-- User.BeforeCreate (model.go): assign a fresh id when the id is nil,
then run the password-hashing guard.  The uuid generator is modelled by
the fresh id supplied by the store. -/
def beforeCreate (freshID : Nat) (u : User) : User :=
  let u1 := if u.id == 0 then { u with id := freshID } else u
  { u1 with password := hashPassword u1.password }

/-- User.BeforeUpdate (model.go): run the password-hashing guard. -/
def beforeUpdate (u : User) : User :=
  { u with password := hashPassword u.password }

/-- Session row (auth/dto/response.go): one issued refresh credential
with device metadata, block flag, expiry and last-active time.  The token
column carries a unique index. -/
structure Session where
  id : Nat
  userId : Nat
  token : Token
  ipAddress : String
  userAgent : String
  deviceId : String
  isBlocked : Bool
  expiresAt : Nat
  lastActive : Nat
deriving DecidableEq

/-- Device metadata captured by the HTTP layer and passed to every
token-issuing call (auth/dto SessionMetadata). -/
structure SessionMetadata where
  ipAddress : String
  userAgent : String
  deviceId : String
deriving DecidableEq

/-- One entry of the key-value OTP store: key, code, absolute expiry
(set-with-TTL realized against the explicit clock). -/
structure OtpRecord where
  key : String
  code : String
  expiresAt : Nat
deriving DecidableEq

/-- The mutable state of the system: user table, role table, session
table, OTP store, and the fresh-id sources standing for uuid
generation. -/
structure DBState where
  users : List User
  roles : List Role
  sessions : List Session
  otp : List OtpRecord
  nextUserId : Nat
  nextSessionId : Nat
deriving DecidableEq

/-- userRepository.FindByEmail: first user row matching the email. -/
def findUserByEmail (db : DBState) (email : String) : Option User :=
  db.users.find? (fun u => u.email == email)

/-- userRepository.FindByID: first user row matching the id. -/
def findUserByID (db : DBState) (id : Nat) : Option User :=
  db.users.find? (fun u => u.id == id)

/-- roleRepository.FindByID: first role row matching the id. -/
def findRoleByID (db : DBState) (id : Nat) : Option Role :=
  db.roles.find? (fun r => r.id == id)

/-- roleRepository.FindBySlug: first role row matching the slug. -/
def findRoleBySlug (db : DBState) (slug : String) : Option Role :=
  db.roles.find? (fun r => r.slug == slug)

/-- userRepository.ExistsByEmail: count of rows with the email is
positive. -/
def existsByEmail (db : DBState) (email : String) : Bool :=
  db.users.any (fun u => u.email == email)

/-- redis SET with TTL: stores the code under the key with absolute
expiry now + ttl, overwriting any previous entry for the key. -/
def redisSet (db : DBState) (now : Nat) (key code : String) (ttlSec : Nat) : DBState :=
  { db with otp := { key := key, code := code, expiresAt := now + ttlSec } ::
      db.otp.filter (fun e => e.key != key) }

/-- redis GET: the stored code when the key is present and unexpired. -/
def redisGet (db : DBState) (now : Nat) (key : String) : Option String :=
  match db.otp.find? (fun e => e.key == key) with
  | some e => if now < e.expiresAt then some e.code else none
  | none => none

/-- redis DEL: removes the key. -/
def redisDel (db : DBState) (key : String) : DBState :=
  { db with otp := db.otp.filter (fun e => e.key != key) }

/-- gorm Update of is_verified scoped by email (used by VerifyEmail and
implicitly unique thanks to the unique index on email). -/
def updateVerifiedByEmail (db : DBState) (email : String) (v : Bool) : DBState :=
  { db with users := db.users.map (fun u => if u.email == email then { u with isVerified := v } else u) }

/-- gorm Update of is_verified scoped by id (used by Register when
verification is disabled). -/
def updateVerifiedByID (db : DBState) (id : Nat) (v : Bool) : DBState :=
  { db with users := db.users.map (fun u => if u.id == id then { u with isVerified := v } else u) }

/-- userRepository.Create: runs the BeforeCreate hook (id assignment and
password hashing) and inserts the row. -/
def repoCreateUser (db : DBState) (u : User) : DBState × User :=
  let u1 := beforeCreate db.nextUserId u
  ({ db with users := db.users ++ [u1], nextUserId := db.nextUserId + 1 }, u1)

/-- Request DTO for userService.CreateUser; the role id is optional and
defaults to the user role. -/
structure CreateUserRequest where
  name : String
  email : String
  password : String
  roleId : Option Nat
deriving DecidableEq

/-- userService.CreateUser (user/service.go): reject duplicate email,
resolve the requested or default role (only user or admin assignable at
creation), then create the row through the hooks. -/
def CreateUser (db : DBState) (req : CreateUserRequest) : DBState × Except AuthErr User :=
  if existsByEmail db req.email then (db, .error .emailExists)
  else
    match req.roleId with
    | some rid =>
      match findRoleByID db rid with
      | none => (db, .error .roleNotFound)
      | some role =>
        if role.slug != "user" && role.slug != "admin" then
          (db, .error .onlyUserOrAdminRoleOnCreate)
        else
          let created := repoCreateUser db
            { id := 0, name := req.name, email := req.email, password := req.password,
              roleId := role.id, isVerified := false }
          (created.1, .ok created.2)
    | none =>
      match findRoleBySlug db "user" with
      | none => (db, .error .defaultUserRoleNotFound)
      | some userRole =>
        let created := repoCreateUser db
          { id := 0, name := req.name, email := req.email, password := req.password,
            roleId := userRole.id, isVerified := false }
        (created.1, .ok created.2)

/-- userService.ValidatePassword (user/service.go): unknown email and
wrong password both collapse to the same invalid-credentials error. -/
def ValidatePassword (db : DBState) (email password : String) : Except AuthErr User :=
  match findUserByEmail db email with
  | none => .error .invalidCredentials
  | some u =>
    if ComparePassword u.password password then .ok u else .error .invalidCredentials

/-- Profile-with-role DTO (user/dto UserRoleResponse): user fields plus
the optionally loaded role. -/
structure UserRoleResponse where
  id : Nat
  name : String
  email : String
  isVerified : Bool
  role : Option Role
deriving DecidableEq

/-- userService.GetProfileWithRole: load the user and eagerly load its
role; a missing role row leaves the role field nil. -/
def GetProfileWithRole (db : DBState) (userID : Nat) : Except AuthErr UserRoleResponse :=
  match findUserByID db userID with
  | none => .error .userNotFound
  | some u =>
    .ok { id := u.id, name := u.name, email := u.email, isVerified := u.isVerified,
          role := findRoleByID db u.roleId }

/-- Auth response DTO (auth/dto AuthResponse).  Go's empty-string zero
values for absent tokens are modelled as none. -/
structure AuthResponse where
  accessToken : Option Token := none
  refreshToken : Option Token := none
  expiresIn : Nat := 0
  user : Option UserRoleResponse := none
  message : String := ""
  requires2FA : Bool := false
deriving DecidableEq

/-- authService.saveSession: insert a session row with the metadata, a
fresh expiry of now + refresh expiry, and last-active now.  The unique
index on the token column makes the insert fail when a row with the same
token already exists; that store error is surfaced unchanged. -/
def saveSession (cfg : Config) (db : DBState) (now : Nat) (userID : Nat) (token : Token)
    (metadata : SessionMetadata) : DBState × Except AuthErr Unit :=
  if db.sessions.any (fun s => s.token == token) then (db, .error .storeFailure)
  else
    let session : Session :=
      { id := db.nextSessionId, userId := userID, token := token,
        ipAddress := metadata.ipAddress, userAgent := metadata.userAgent,
        deviceId := metadata.deviceId, isBlocked := false,
        expiresAt := now + cfg.refreshExpirySec, lastActive := now }
    ({ db with sessions := db.sessions ++ [session], nextSessionId := db.nextSessionId + 1 },
     .ok ())

/-- The role-slug derivation shared by token-issuing paths: empty when
the user has no role row. -/
def roleSlugOf (role : Option Role) : String :=
  match role with | some r => r.slug | none => ""

/-- The permission-list derivation shared by token-issuing paths: empty
when the user has no role row. -/
def permissionsOf (role : Option Role) : List String :=
  match role with | some r => r.permissions | none => []

/-- authService.generateAuthResponse: load user with role, derive role
slug and permissions (empty when no role), mint the token pair, persist
the session, and return the tokens with the profile. -/
def generateAuthResponse (cfg : Config) (db : DBState) (now : Nat) (userID : Nat)
    (metadata : SessionMetadata) : DBState × Except AuthErr AuthResponse :=
  match GetProfileWithRole db userID with
  | .error _ => (db, .error .failedToLoadUserRole)
  | .ok userWithRole =>
    let pair := GenerateTokenPair cfg now userID userWithRole.email
      (roleSlugOf userWithRole.role) (permissionsOf userWithRole.role)
    match saveSession cfg db now userID pair.2 metadata with
    | (db1, .error e) => (db1, .error e)
    | (db1, .ok _) =>
      (db1, .ok { accessToken := some pair.1, refreshToken := some pair.2,
                  expiresIn := cfg.accessExpirySec, user := some userWithRole })

/-- Registration request DTO. -/
structure RegisterRequest where
  name : String
  email : String
  password : String
deriving DecidableEq

/-- authService.Register (auth/service.go): create the user with the
default role; with verification enabled, store a 6-digit code under
activation:email with a 10-minute TTL and return a message-only response
(the asynchronous email send does not affect the result); with
verification disabled, mark the user verified and issue tokens.  rand
abstracts the random source of the code; otpStoreOk injects the
key-value store's accept/fail outcome for the SET call. -/
def Register (cfg : Config) (db : DBState) (now : Nat) (rand : Nat) (otpStoreOk : Bool)
    (req : RegisterRequest) (metadata : SessionMetadata) : DBState × Except AuthErr AuthResponse :=
  match CreateUser db { name := req.name, email := req.email, password := req.password, roleId := none } with
  | (db1, .error e) => (db1, .error e)
  | (db1, .ok createdUser) =>
    if cfg.emailVerificationEnabled then
      let code := RandomIntString 6 rand
      let key := "activation:" ++ req.email
      if otpStoreOk then
        (redisSet db1 now key code (10 * 60),
         .ok { message := "Registration successful. Please check your email to activate your account." })
      else (db1, .error .failedToSaveVerificationCode)
    else
      let db2 := updateVerifiedByID db1 createdUser.id true
      generateAuthResponse cfg db2 now createdUser.id metadata

/-- Login request DTO. -/
structure LoginRequest where
  email : String
  password : String
deriving DecidableEq

/-- authService.Login (auth/service.go): validate credentials (any
failure collapses to one generic error), load the profile with role,
compute the super_admin exemption, apply the verification gate and the
2FA gate (both skipped for super_admin), otherwise issue tokens. -/
def Login (cfg : Config) (db : DBState) (now : Nat) (rand : Nat) (otpStoreOk : Bool)
    (req : LoginRequest) (metadata : SessionMetadata) : DBState × Except AuthErr AuthResponse :=
  match ValidatePassword db req.email req.password with
  | .error _ => (db, .error .invalidEmailOrPassword)
  | .ok authenticatedUser =>
    match GetProfileWithRole db authenticatedUser.id with
    | .error _ => (db, .error .failedToLoadUserProfile)
    | .ok userWithRole =>
      let isSuperAdmin := match userWithRole.role with
        | some r => r.slug == "super_admin"
        | none => false
      if cfg.emailVerificationEnabled && !userWithRole.isVerified && !isSuperAdmin then
        (db, .error .accountNotVerified)
      else if cfg.twoFactorEnabled && !isSuperAdmin then
        let code := RandomIntString 6 rand
        let key := "2fa:" ++ req.email
        if otpStoreOk then
          (redisSet db now key code (5 * 60),
           .ok { user := some userWithRole, message := "2FA Required", requires2FA := true })
        else (db, .error .failedToGenerate2faCode)
      else
        generateAuthResponse cfg db now authenticatedUser.id metadata

/-- Email-verification request DTO. -/
structure VerifyEmailRequest where
  email : String
  code : String
deriving DecidableEq

/-- authService.VerifyEmail (auth/service.go): fetch the stored
activation code; on absence or mismatch fail with the
invalid-or-expired-code error; on match mark the user verified and
delete the code. -/
def VerifyEmail (db : DBState) (now : Nat) (req : VerifyEmailRequest) : DBState × Except AuthErr Unit :=
  let key := "activation:" ++ req.email
  match redisGet db now key with
  | none => (db, .error .invalidOrExpiredCode)
  | some storedCode =>
    if storedCode != req.code then (db, .error .invalidOrExpiredCode)
    else
      let db1 := updateVerifiedByEmail db req.email true
      (redisDel db1 key, .ok ())

/-- The session query of RefreshToken: first session row with the given
token, unexpired (expires_at strictly after now) and not blocked. -/
def sessionLookup (db : DBState) (now : Nat) (token : Token) : Option Session :=
  db.sessions.find? (fun s => s.token == token && decide (now < s.expiresAt) && s.isBlocked == false)

/-- gorm Delete of a loaded session row: delete by primary key.  The
delete result (rows affected, error) is discarded by the caller in
RefreshToken, exactly as in the source. -/
def deleteSessionRow (db : DBState) (id : Nat) : DBState :=
  { db with sessions := db.sessions.filter (fun s => s.id != id) }

/-- authService.RefreshToken (auth/service.go): validate the token, look
up the matching valid session, reload the profile with the current role,
mint a fresh pair (identity from the old claims, role from the reload),
delete the old session row unconditionally, and persist the new
session. -/
def RefreshToken (cfg : Config) (db : DBState) (now : Nat) (refreshToken : Token)
    (metadata : SessionMetadata) : DBState × Except AuthErr AuthResponse :=
  match ValidateToken cfg now refreshToken with
  | .error _ => (db, .error .invalidOrExpiredRefreshToken)
  | .ok claims =>
    match sessionLookup db now refreshToken with
    | none => (db, .error .sessionNotFoundOrBlocked)
    | some storedSession =>
      match GetProfileWithRole db claims.userId with
      | .error _ => (db, .error .userNotFound)
      | .ok userProfile =>
        let pair := GenerateTokenPair cfg now claims.userId claims.email
          (roleSlugOf userProfile.role) (permissionsOf userProfile.role)
        let db1 := deleteSessionRow db storedSession.id
        match saveSession cfg db1 now claims.userId pair.2 metadata with
        | (db2, .error e) => (db2, .error e)
        | (db2, .ok _) =>
          (db2, .ok { accessToken := some pair.1, refreshToken := some pair.2,
                      expiresIn := cfg.accessExpirySec, user := some userProfile })

/-- The read phase of RefreshToken: everything the method observes before
its first write, in program order (token validation, session lookup,
profile reload).  Two concurrent callers can both complete this phase
against the same store snapshot before either caller writes. -/
def refreshPhase1 (cfg : Config) (db : DBState) (now : Nat) (refreshToken : Token) :
    Except AuthErr (JWTClaims × Session × UserRoleResponse) :=
  match ValidateToken cfg now refreshToken with
  | .error _ => .error .invalidOrExpiredRefreshToken
  | .ok claims =>
    match sessionLookup db now refreshToken with
    | none => .error .sessionNotFoundOrBlocked
    | some storedSession =>
      match GetProfileWithRole db claims.userId with
      | .error _ => .error .userNotFound
      | .ok userProfile => .ok (claims, storedSession, userProfile)

/-- The write phase of RefreshToken: mint the new pair, delete the old
session row by primary key with the delete result discarded, then insert
the new session.  It never inspects whether the delete removed a row. -/
def refreshPhase2 (cfg : Config) (db : DBState) (now : Nat) (claims : JWTClaims)
    (storedSession : Session) (userProfile : UserRoleResponse) (metadata : SessionMetadata) :
    DBState × Except AuthErr AuthResponse :=
  let pair := GenerateTokenPair cfg now claims.userId claims.email
    (roleSlugOf userProfile.role) (permissionsOf userProfile.role)
  let db1 := deleteSessionRow db storedSession.id
  match saveSession cfg db1 now claims.userId pair.2 metadata with
  | (db2, .error e) => (db2, .error e)
  | (db2, .ok _) =>
    (db2, .ok { accessToken := some pair.1, refreshToken := some pair.2,
                expiresIn := cfg.accessExpirySec, user := some userProfile })

/-- authService.Logout: delete the session row matching the token; a
zero-row delete is not an error. -/
def Logout (db : DBState) (refreshToken : Token) : DBState × Except AuthErr Unit :=
  ({ db with sessions := db.sessions.filter (fun s => s.token != refreshToken) }, .ok ())

/-- authService.DeleteSession: delete where id and user_id both match.
gorm's Delete returns a nil error when zero rows match, so the operation
reports success regardless of whether anything was deleted; only
store-layer failures (not modelled) would surface an error. -/
def DeleteSession (db : DBState) (userID sessionID : Nat) : DBState × Except AuthErr Unit :=
  ({ db with sessions := db.sessions.filter (fun s => !(s.id == sessionID && s.userId == userID)) },
   .ok ())

/-- authService.BlockSession: set is_blocked where id and user_id both
match; like DeleteSession a zero-row update reports success. -/
def BlockSession (db : DBState) (userID sessionID : Nat) : DBState × Except AuthErr Unit :=
  let block := fun (s : Session) =>
    if s.id == sessionID && s.userId == userID then { s with isBlocked := true } else s
  ({ db with sessions := db.sessions.map block }, .ok ())

/-- Boolean success test on results (nil error versus error in Go). -/
def isOkE {α : Type} : Except AuthErr α → Bool
  | .ok _ => true
  | .error _ => false

/-! Concrete fixtures used to instantiate the theorems below. -/

/-- Fixture configuration with both security feature flags disabled. -/
def fxCfgOff : Config :=
  { emailVerificationEnabled := false, twoFactorEnabled := false, jwtSecret := "k",
    accessExpirySec := 900, refreshExpirySec := 3600, issuer := "api" }

/-- Fixture configuration with both security feature flags enabled. -/
def fxCfgBoth : Config :=
  { fxCfgOff with emailVerificationEnabled := true, twoFactorEnabled := true }

/-- Fixture default user role. -/
def fxRoleUser : Role := { id := 1, name := "User", slug := "user", permissions := ["read"] }

/-- Fixture super_admin role with the wildcard permission. -/
def fxRoleSuper : Role := { id := 2, name := "Super", slug := "super_admin", permissions := ["*"] }

/-- Fixture verified regular user. -/
def fxAnn : User :=
  { id := 1, name := "Ann", email := "ann@x.com", password := HashPassword "secret1",
    roleId := 1, isVerified := true }

/-- Fixture unverified super_admin user. -/
def fxBob : User :=
  { id := 2, name := "Bob", email := "bob@x.com", password := HashPassword "pw2",
    roleId := 2, isVerified := false }

/-- Fixture request metadata. -/
def fxMd : SessionMetadata := { ipAddress := "127.0.0.1", userAgent := "ua", deviceId := "d" }

/-- Fixture refresh token for Ann, issued at time 100. -/
def fxTok : Token := (GenerateTokenPair fxCfgOff 100 1 "ann@x.com" "user" ["read"]).2

/-- Fixture session row holding fxTok. -/
def fxSess : Session :=
  { id := 10, userId := 1, token := fxTok, ipAddress := "127.0.0.1", userAgent := "ua",
    deviceId := "d", isBlocked := false, expiresAt := 3700, lastActive := 100 }

/-- Fixture store with Ann and her session (refresh scenarios). -/
def fxDb : DBState :=
  { users := [fxAnn], roles := [fxRoleUser], sessions := [fxSess], otp := [],
    nextUserId := 2, nextSessionId := 11 }

/-- Fixture store with Ann and super-admin Bob, no sessions (login
scenarios). -/
def fxDbLogin : DBState :=
  { users := [fxAnn, fxBob], roles := [fxRoleUser, fxRoleSuper], sessions := [], otp := [],
    nextUserId := 3, nextSessionId := 1 }

/-- Fixture store with an unverified Ann and a pending activation code
(verification scenarios). -/
def fxDbVerify : DBState :=
  { users := [{ fxAnn with isVerified := false }], roles := [fxRoleUser], sessions := [],
    otp := [{ key := "activation:ann@x.com", code := "123456", expiresAt := 700 }],
    nextUserId := 2, nextSessionId := 1 }

/-- Fixture verification request matching the stored code. -/
def fxVeReq : VerifyEmailRequest := { email := "ann@x.com", code := "123456" }

/-- Fixture registration request. -/
def fxRegReq : RegisterRequest := { name := "Cid", email := "cid@x.com", password := "pw3" }

/-- Fixture store with only the default role (registration scenarios). -/
def fxDbReg : DBState :=
  { users := [], roles := [fxRoleUser], sessions := [], otp := [],
    nextUserId := 1, nextSessionId := 1 }

/-- Fixture store holding one session owned by user 2 (session-scoping
scenarios). -/
def fxDbScope : DBState :=
  { fxDb with sessions := [{ fxSess with id := 20, userId := 2 }] }

/-- Fixture profile of Ann as loaded with her role. -/
def fxProfAnn : UserRoleResponse :=
  { id := 1, name := "Ann", email := "ann@x.com", isVerified := true, role := some fxRoleUser }

/-! Helper lemmas shared by the claim theorems. -/

/-- Validation of a freshly generated unexpired token returns exactly the
claims it was built from. -/
theorem validateToken_generateToken (cfg : Config) (now t : Nat) (uid : Nat)
    (email slug : String) (perms : List String) (exp : Nat)
    (h1 : now ≤ t) (h2 : t < now + exp) :
    ValidateToken cfg t (GenerateToken cfg now uid email slug perms exp) =
      .ok (tokenClaims cfg now uid email slug perms exp) := by
  simp only [ValidateToken, GenerateToken, tokenClaims]
  split_ifs with hA hS hE hN hI
  · simp [isHmacAlg] at hA
  · exact absurd rfl hS
  · omega
  · omega
  · exact absurd rfl hI
  · rfl

/-- Every hash produced by HashPassword is recognized by IsHashed. -/
theorem isHashed_hashPassword (p : String) : IsHashed (HashPassword p) = true := by
  unfold IsHashed HashPassword strStartsWith
  have h : "$2a$".data.isPrefixOf ("$2a$10$" ++ p).data = true := by
    rw [List.isPrefixOf_iff_prefix, String.data_append]
    exact List.IsPrefix.trans (by decide) (List.prefix_append _ _)
  rw [h, Bool.true_or, Bool.true_or]

/-- Reading a key just written and not yet expired returns the value. -/
theorem redisGet_redisSet_same (db : DBState) (now t : Nat) (key code : String) (ttl : Nat)
    (h : t < now + ttl) : redisGet (redisSet db now key code ttl) t key = some code := by
  unfold redisGet redisSet
  simp [List.find?_cons, h]

/-- Reading a key just deleted returns nothing. -/
theorem redisGet_redisDel_same (db : DBState) (t : Nat) (key : String) :
    redisGet (redisDel db key) t key = none := by
  unfold redisGet redisDel
  have h : (db.otp.filter (fun e => e.key != key)).find? (fun e => e.key == key) = none := by
    rw [List.find?_eq_none]
    intro x hx
    have hk := (List.mem_filter.mp hx).2
    simpa using hk
  rw [h]

/-- The BeforeCreate hook never changes the email. -/
theorem beforeCreate_email (fid : Nat) (u : User) : (beforeCreate fid u).email = u.email := by
  unfold beforeCreate
  cases h : u.id == 0 <;> simp [h]

/-- Profile lookup only depends on the user and role tables. -/
theorem getProfileWithRole_congr (db db' : DBState) (h1 : db'.users = db.users)
    (h2 : db'.roles = db.roles) (uid : Nat) :
    GetProfileWithRole db' uid = GetProfileWithRole db uid := by
  unfold GetProfileWithRole findUserByID findRoleByID
  rw [h1, h2]

/-- Generated codes have exactly the requested number of characters. -/
theorem randomIntString_length (n r : Nat) : (RandomIntString n r).length = n := by
  unfold RandomIntString
  simp [String.length]

/-- Generated codes consist of decimal digits only. -/
theorem randomIntString_digits (n r : Nat) :
    ∀ c ∈ (RandomIntString n r).data, c.isDigit = true := by
  unfold RandomIntString
  intro c hc
  simp only [List.mem_map, List.mem_range] at hc
  obtain ⟨i, hi, rfl⟩ := hc
  have hdlt : r / 10 ^ (n - 1 - i) % 10 < 10 := Nat.mod_lt _ (by norm_num)
  set d := r / 10 ^ (n - 1 - i) % 10 with hd
  interval_cases d <;> decide

/-- When no session row carries the token, the session query of
RefreshToken finds nothing. -/
theorem sessionLookup_eq_none_of_no_token (db : DBState) (now : Nat) (tok : Token)
    (h : ∀ s ∈ db.sessions, s.token ≠ tok) : sessionLookup db now tok = none := by
  unfold sessionLookup
  rw [List.find?_eq_none]
  intro x hx
  simp [beq_eq_false_iff_ne.mpr (h x hx)]

/-- RefreshToken fails whenever no session row carries the presented
token, whatever the clock says. -/
theorem refreshToken_fails_of_no_session (cfg : Config) (db : DBState) (now : Nat)
    (tok : Token) (md : SessionMetadata) (h : ∀ s ∈ db.sessions, s.token ≠ tok) :
    isOkE (RefreshToken cfg db now tok md).2 = false := by
  unfold RefreshToken
  cases hv : ValidateToken cfg now tok with
  | error e => rfl
  | ok c =>
    dsimp only
    rw [sessionLookup_eq_none_of_no_token db now tok h]
    rfl

/-! Claim theorems. -/

/-- C2: for every user id, email, role slug and permission list,
generating a token pair and then validating the access token before its
expiry returns claims whose user id, email, role slug and permissions
equal the inputs. -/
theorem token_pair_roundtrip (cfg : Config) (uid : Nat) (email slug : String)
    (perms : List String) (now t : Nat) (h1 : now ≤ t)
    (h2 : t < now + cfg.accessExpirySec) :
    ValidateToken cfg t (GenerateTokenPair cfg now uid email slug perms).1 =
      .ok { userId := uid, email := email, roleSlug := slug, permissions := perms,
            issuer := cfg.issuer, issuedAt := now, notBefore := now,
            expiresAt := now + cfg.accessExpirySec } :=
  validateToken_generateToken cfg now t uid email slug perms cfg.accessExpirySec h1 h2

/-- Witness for the round-trip theorem at concrete inputs. -/
theorem token_pair_roundtrip_witness :
    5 ≤ 10 ∧ 10 < 5 + fxCfgOff.accessExpirySec ∧
    ValidateToken fxCfgOff 10 (GenerateTokenPair fxCfgOff 5 1 "ann@x.com" "user" ["read"]).1 =
      .ok { userId := 1, email := "ann@x.com", roleSlug := "user", permissions := ["read"],
            issuer := fxCfgOff.issuer, issuedAt := 5, notBefore := 5,
            expiresAt := 5 + fxCfgOff.accessExpirySec } :=
  ⟨by decide, by decide,
   token_pair_roundtrip fxCfgOff 1 "ann@x.com" "user" ["read"] 5 10 (by decide) (by decide)⟩

/-- C9: on every user save, a password already in bcrypt format is left
unchanged by the hooks, and a non-empty unhashed password is hashed
exactly once: the created row holds the hash and a subsequent update pass
over the row changes nothing. -/
theorem password_hashed_exactly_once (u : User) (freshID : Nat) :
    (IsHashed u.password = true →
      (beforeCreate freshID u).password = u.password ∧
      (beforeUpdate u).password = u.password) ∧
    (u.password ≠ "" → IsHashed u.password = false →
      (beforeCreate freshID u).password = HashPassword u.password ∧
      (beforeUpdate u).password = HashPassword u.password ∧
      beforeUpdate (beforeCreate freshID u) = beforeCreate freshID u) := by
  constructor
  · intro hH
    unfold beforeCreate beforeUpdate hashPassword
    constructor
    · cases hid : u.id == 0 <;> simp [hid, hH]
    · simp [hH]
  · intro hne hH
    have hb : (u.password == "") = false := beq_eq_false_iff_ne.mpr hne
    have hpw : (beforeCreate freshID u).password = HashPassword u.password := by
      unfold beforeCreate hashPassword
      cases hid : u.id == 0 <;> simp [hid, hH, hb, bne]
    have hfix : hashPassword (HashPassword u.password) = HashPassword u.password := by
      unfold hashPassword
      simp [isHashed_hashPassword]
    refine ⟨hpw, ?_, ?_⟩
    · unfold beforeUpdate hashPassword
      simp [hH, hb, bne]
    · unfold beforeUpdate
      rw [hpw, hfix, ← hpw]

/-- Witness for the hashing guard at concrete inputs. -/
theorem password_hashed_exactly_once_witness :
    (IsHashed "$2a$10$abc" = true ∧
      (beforeCreate 7 { id := 0, name := "N", email := "e@x", password := "$2a$10$abc",
                        roleId := 1, isVerified := false }).password = "$2a$10$abc") ∧
    ("pw" ≠ "" ∧ IsHashed "pw" = false ∧
      (beforeCreate 7 { id := 0, name := "N", email := "e@x", password := "pw",
                        roleId := 1, isVerified := false }).password = HashPassword "pw") := by
  have h1 := (password_hashed_exactly_once
    { id := 0, name := "N", email := "e@x", password := "$2a$10$abc", roleId := 1,
      isVerified := false } 7).1
  have h2 := (password_hashed_exactly_once
    { id := 0, name := "N", email := "e@x", password := "pw", roleId := 1,
      isVerified := false } 7).2
  exact ⟨⟨by decide, (h1 (by decide)).1⟩, ⟨by decide, by decide, (h2 (by decide) (by decide)).1⟩⟩

/-- C6: a login that fails because the email is unknown and a login that
fails because the password is wrong produce identical results: the state
is untouched and the error is the same generic invalid-credentials error
in both cases, with no distinguishing signal. -/
theorem login_failures_indistinguishable (cfg : Config) (db : DBState) (now1 now2 : Nat)
    (r1 r2 : Nat) (ok1 ok2 : Bool) (md1 md2 : SessionMetadata)
    (e1 p1 e2 p2 : String) (u : User)
    (hmiss : findUserByEmail db e1 = none)
    (hhit : findUserByEmail db e2 = some u)
    (hwrong : ComparePassword u.password p2 = false) :
    Login cfg db now1 r1 ok1 { email := e1, password := p1 } md1 =
      (db, .error .invalidEmailOrPassword) ∧
    Login cfg db now2 r2 ok2 { email := e2, password := p2 } md2 =
      (db, .error .invalidEmailOrPassword) ∧
    Login cfg db now1 r1 ok1 { email := e1, password := p1 } md1 =
      Login cfg db now2 r2 ok2 { email := e2, password := p2 } md2 := by
  have ha : Login cfg db now1 r1 ok1 { email := e1, password := p1 } md1 =
      (db, .error .invalidEmailOrPassword) := by
    unfold Login ValidatePassword
    rw [hmiss]
  have hbb : Login cfg db now2 r2 ok2 { email := e2, password := p2 } md2 =
      (db, .error .invalidEmailOrPassword) := by
    unfold Login ValidatePassword
    rw [hhit]
    simp [hwrong]
  exact ⟨ha, hbb, ha.trans hbb.symm⟩

/-- Witness for credential-failure indistinguishability at concrete
inputs. -/
theorem login_failures_indistinguishable_witness :
    findUserByEmail fxDbLogin "nobody@x.com" = none ∧
    findUserByEmail fxDbLogin "ann@x.com" = some fxAnn ∧
    ComparePassword fxAnn.password "wrong" = false ∧
    Login fxCfgBoth fxDbLogin 200 7 true { email := "nobody@x.com", password := "zz" } fxMd =
      (fxDbLogin, .error .invalidEmailOrPassword) ∧
    Login fxCfgBoth fxDbLogin 200 7 true { email := "ann@x.com", password := "wrong" } fxMd =
      (fxDbLogin, .error .invalidEmailOrPassword) := by
  have h := login_failures_indistinguishable fxCfgBoth fxDbLogin 200 200 7 7 true true fxMd fxMd
    "nobody@x.com" "zz" "ann@x.com" "wrong" fxAnn (by decide) (by decide) (by decide)
  exact ⟨by decide, by decide, by decide, h.1, h.2.1⟩

/-- C4: every registration that returns successfully while email
verification is enabled carries no access or refresh token, and the OTP
store then holds a 6-digit numeric code under activation:email whose
expiry is exactly ten minutes after the call. -/
theorem register_stores_activation_code (cfg : Config) (db db1 : DBState) (now : Nat)
    (rand : Nat) (okFlag : Bool) (req : RegisterRequest) (md : SessionMetadata)
    (resp : AuthResponse)
    (hflag : cfg.emailVerificationEnabled = true)
    (h : Register cfg db now rand okFlag req md = (db1, .ok resp)) :
    resp.accessToken = none ∧ resp.refreshToken = none ∧
    redisGet db1 now ("activation:" ++ req.email) = some (RandomIntString 6 rand) ∧
    ({ key := "activation:" ++ req.email, code := RandomIntString 6 rand,
       expiresAt := now + 10 * 60 } : OtpRecord) ∈ db1.otp ∧
    (RandomIntString 6 rand).length = 6 ∧
    (∀ c ∈ (RandomIntString 6 rand).data, c.isDigit = true) := by
  unfold Register at h
  rcases hcu : CreateUser db { name := req.name, email := req.email, password := req.password, roleId := none } with ⟨dbx, rx⟩
  rw [hcu] at h
  cases rx with
  | error e => simp at h
  | ok created =>
    rw [hflag] at h
    cases okFlag with
    | false => simp at h
    | true =>
      simp only [Prod.mk.injEq, Except.ok.injEq, if_true, eq_self_iff_true] at h
      obtain ⟨hdb, hresp⟩ := h
      subst hdb
      subst hresp
      refine ⟨rfl, rfl, ?_, ?_, randomIntString_length 6 rand, randomIntString_digits 6 rand⟩
      · exact redisGet_redisSet_same dbx now now ("activation:" ++ req.email)
          (RandomIntString 6 rand) (10 * 60) (by omega)
      · unfold redisSet
        exact List.mem_cons_self _ _

/-- Witness for the registration-code theorem at concrete inputs. -/
theorem register_stores_activation_code_witness :
    fxCfgBoth.emailVerificationEnabled = true ∧
    redisGet (Register fxCfgBoth fxDbReg 50 123456 true fxRegReq fxMd).1 50
      ("activation:" ++ fxRegReq.email) = some (RandomIntString 6 123456) ∧
    (RandomIntString 6 123456).length = 6 :=
  have h := register_stores_activation_code fxCfgBoth fxDbReg
    (Register fxCfgBoth fxDbReg 50 123456 true fxRegReq fxMd).1 50 123456 true fxRegReq fxMd
    { message := "Registration successful. Please check your email to activate your account." }
    rfl rfl
  ⟨rfl, h.2.2.1, h.2.2.2.2.1⟩

/-- C5: a VerifyEmail call whose code matches the stored activation code
succeeds and deletes the code, so repeating the same call fails with the
invalid-or-expired-code error; a call with a non-matching or absent code
fails with that error and leaves the whole state, in particular the
verified flag, unchanged. -/
theorem verifyEmail_code_single_use (db : DBState) (now now2 : Nat) (req : VerifyEmailRequest) :
    (redisGet db now ("activation:" ++ req.email) = some req.code →
      (VerifyEmail db now req).2 = .ok () ∧
      VerifyEmail (VerifyEmail db now req).1 now2 req =
        ((VerifyEmail db now req).1, .error .invalidOrExpiredCode)) ∧
    (redisGet db now ("activation:" ++ req.email) ≠ some req.code →
      VerifyEmail db now req = (db, .error .invalidOrExpiredCode)) := by
  constructor
  · intro hhit
    have h1 : VerifyEmail db now req =
        (redisDel (updateVerifiedByEmail db req.email true) ("activation:" ++ req.email), .ok ()) := by
      simp [VerifyEmail, hhit]
    have h2 : (VerifyEmail db now req).1 =
        redisDel (updateVerifiedByEmail db req.email true) ("activation:" ++ req.email) := by
      rw [h1]
    refine ⟨by rw [h1], ?_⟩
    rw [h2]
    simp [VerifyEmail, redisGet_redisDel_same]
  · intro hmiss
    cases hg : redisGet db now ("activation:" ++ req.email) with
    | none => simp [VerifyEmail, hg]
    | some c =>
      have hne : c ≠ req.code := fun heq => hmiss (by rw [hg, heq])
      simp [VerifyEmail, hg, hne]

/-- Witness for one-time verification codes at concrete inputs. -/
theorem verifyEmail_code_single_use_witness :
    redisGet fxDbVerify 50 ("activation:" ++ fxVeReq.email) = some fxVeReq.code ∧
    (VerifyEmail fxDbVerify 50 fxVeReq).2 = .ok () ∧
    VerifyEmail (VerifyEmail fxDbVerify 50 fxVeReq).1 60 fxVeReq =
      ((VerifyEmail fxDbVerify 50 fxVeReq).1, .error .invalidOrExpiredCode) :=
  have h := (verifyEmail_code_single_use fxDbVerify 50 60 fxVeReq).1 rfl
  ⟨rfl, h.1, h.2⟩

/-- C10: when email verification is enabled and the OTP store rejects the
activation-code write after the user row was created, Register returns an
error but the user row persists, so retrying the same registration fails
with the email-already-exists error. -/
theorem register_keeps_user_when_otp_store_fails (cfg : Config) (db : DBState)
    (now now2 : Nat) (rand rand2 : Nat) (ok2 : Bool) (req : RegisterRequest)
    (md md2 : SessionMetadata) (r0 : Role)
    (hflag : cfg.emailVerificationEnabled = true)
    (hfresh : existsByEmail db req.email = false)
    (hrole : findRoleBySlug db "user" = some r0) :
    (Register cfg db now rand false req md).2 = .error .failedToSaveVerificationCode ∧
    existsByEmail (Register cfg db now rand false req md).1 req.email = true ∧
    Register cfg (Register cfg db now rand false req md).1 now2 rand2 ok2 req md2 =
      ((Register cfg db now rand false req md).1, .error .emailExists) := by
  have hcu : CreateUser db { name := req.name, email := req.email, password := req.password, roleId := none } =
      ({ db with users := db.users ++ [beforeCreate db.nextUserId { id := 0, name := req.name, email := req.email, password := req.password, roleId := r0.id, isVerified := false }], nextUserId := db.nextUserId + 1 },
       .ok (beforeCreate db.nextUserId { id := 0, name := req.name, email := req.email, password := req.password, roleId := r0.id, isVerified := false })) := by
    unfold CreateUser repoCreateUser
    rw [hfresh, hrole]
    simp
  have hreg : Register cfg db now rand false req md =
      ({ db with users := db.users ++ [beforeCreate db.nextUserId { id := 0, name := req.name, email := req.email, password := req.password, roleId := r0.id, isVerified := false }], nextUserId := db.nextUserId + 1 },
       .error .failedToSaveVerificationCode) := by
    unfold Register
    rw [hcu, hflag]
    simp
  have hex : existsByEmail (Register cfg db now rand false req md).1 req.email = true := by
    rw [hreg]
    unfold existsByEmail
    simp only [List.any_append, List.any_cons, List.any_nil]
    rw [beforeCreate_email]
    simp
  have hfinal : ∀ db2 : DBState, existsByEmail db2 req.email = true →
      Register cfg db2 now2 rand2 ok2 req md2 = (db2, .error .emailExists) := by
    intro db2 hex2
    unfold Register CreateUser
    rw [hex2]
    simp
  exact ⟨by rw [hreg], hex, hfinal _ hex⟩

/-- Witness for non-atomic registration at concrete inputs. -/
theorem register_keeps_user_when_otp_store_fails_witness :
    (Register fxCfgBoth fxDbReg 50 9 false fxRegReq fxMd).2 = .error .failedToSaveVerificationCode ∧
    existsByEmail (Register fxCfgBoth fxDbReg 50 9 false fxRegReq fxMd).1 fxRegReq.email = true ∧
    Register fxCfgBoth (Register fxCfgBoth fxDbReg 50 9 false fxRegReq fxMd).1 60 10 true fxRegReq fxMd =
      ((Register fxCfgBoth fxDbReg 50 9 false fxRegReq fxMd).1, .error .emailExists) :=
  register_keeps_user_when_otp_store_fails fxCfgBoth fxDbReg 50 60 9 10 true fxRegReq fxMd fxMd
    fxRoleUser rfl rfl rfl

/-- C3: a user whose role slug is super_admin and whose password check
succeeds receives a full token-pair response from Login, with no
verification gate and no 2FA gate, even when both feature flags are
enabled and the account is unverified. -/
theorem login_superadmin_bypasses_gates (cfg : Config) (db : DBState) (now rand : Nat)
    (okFlag : Bool) (req : LoginRequest) (md : SessionMetadata) (u : User)
    (prof : UserRoleResponse) (r : Role)
    (hv : cfg.emailVerificationEnabled = true) (h2f : cfg.twoFactorEnabled = true)
    (hval : ValidatePassword db req.email req.password = .ok u)
    (hprof : GetProfileWithRole db u.id = .ok prof)
    (hrole : prof.role = some r)
    (hslug : r.slug = "super_admin")
    (hunv : prof.isVerified = false)
    (hfresh : ∀ s ∈ db.sessions, s.token.claims.issuedAt ≠ now) :
    ∃ db1, Login cfg db now rand okFlag req md =
      (db1, .ok { accessToken := some (GenerateTokenPair cfg now u.id prof.email r.slug r.permissions).1,
                  refreshToken := some (GenerateTokenPair cfg now u.id prof.email r.slug r.permissions).2,
                  expiresIn := cfg.accessExpirySec, user := some prof }) := by
  have hsave : db.sessions.any
      (fun s => s.token == (GenerateTokenPair cfg now u.id prof.email r.slug r.permissions).2) = false := by
    rw [List.any_eq_false]
    intro s hs hp
    have he : s.token = (GenerateTokenPair cfg now u.id prof.email r.slug r.permissions).2 :=
      eq_of_beq hp
    have hi : s.token.claims.issuedAt = now := by rw [he]; rfl
    exact hfresh s hs hi
  simp only [Login, hval, hprof, hrole, hslug]
  simp only [beq_self_eq_true, Bool.not_true, Bool.and_false, Bool.false_eq_true, if_false]
  unfold generateAuthResponse
  simp only [hprof, roleSlugOf, permissionsOf, hrole, hslug]
  unfold saveSession
  rw [hslug] at hsave
  rw [hsave]
  simp

/-- Witness for the super-admin exemption at concrete inputs. -/
theorem login_superadmin_bypasses_gates_witness :
    fxCfgBoth.emailVerificationEnabled = true ∧ fxCfgBoth.twoFactorEnabled = true ∧
    ValidatePassword fxDbLogin "bob@x.com" "pw2" = .ok fxBob ∧
    ∃ db1, Login fxCfgBoth fxDbLogin 200 7 true { email := "bob@x.com", password := "pw2" } fxMd =
      (db1, .ok { accessToken := some (GenerateTokenPair fxCfgBoth 200 fxBob.id "bob@x.com" fxRoleSuper.slug fxRoleSuper.permissions).1,
                  refreshToken := some (GenerateTokenPair fxCfgBoth 200 fxBob.id "bob@x.com" fxRoleSuper.slug fxRoleSuper.permissions).2,
                  expiresIn := fxCfgBoth.accessExpirySec,
                  user := some { id := 2, name := "Bob", email := "bob@x.com", isVerified := false, role := some fxRoleSuper } }) :=
  ⟨rfl, rfl, rfl,
   login_superadmin_bypasses_gates fxCfgBoth fxDbLogin 200 7 true
     { email := "bob@x.com", password := "pw2" } fxMd fxBob
     { id := 2, name := "Bob", email := "bob@x.com", isVerified := false, role := some fxRoleSuper }
     fxRoleSuper rfl rfl rfl rfl rfl rfl rfl (by intro s hs; simp [fxDbLogin] at hs)⟩

/-- C7 (amended): deleting or blocking a session through another user's
id is a silent no-op: the session table is unchanged and, because gorm
reports no error on a zero-row delete or update, the call returns plain
success rather than a distinguishable not-found outcome; it never mutates
another user's session. -/
theorem session_ops_scoped_to_owner (db : DBState) (a b sid : Nat) (s : Session)
    (hmem : s ∈ db.sessions) (hsid : s.id = sid) (howner : s.userId = b) (hab : a ≠ b)
    (hids : (db.sessions.map Session.id).Nodup) :
    DeleteSession db a sid = (db, .ok ()) ∧ BlockSession db a sid = (db, .ok ()) := by
  have hnot : ∀ t ∈ db.sessions, (t.id == sid && t.userId == a) = false := by
    intro t ht
    by_cases hid : t.id = sid
    · have hts : t = s := List.inj_on_of_nodup_map hids ht hmem (by rw [hid, hsid])
      have hua : (t.userId == a) = false := by
        rw [hts, howner]
        exact beq_eq_false_iff_ne.mpr (fun h => hab h.symm)
      simp [hua]
    · have hfid : (t.id == sid) = false := beq_eq_false_iff_ne.mpr hid
      simp [hfid]
  constructor
  · unfold DeleteSession
    have hfil : db.sessions.filter (fun t => !(t.id == sid && t.userId == a)) = db.sessions := by
      apply List.filter_eq_self.mpr
      intro t ht
      rw [hnot t ht]
      rfl
    rw [hfil]
  · simp only [BlockSession]
    have hmap : ∀ t ∈ db.sessions,
        (if t.id == sid && t.userId == a then { t with isBlocked := true } else t) = id t := by
      intro t ht
      rw [hnot t ht]
      simp
    rw [List.map_congr_left hmap, List.map_id]

/-- Witness for session scoping at concrete inputs. -/
theorem session_ops_scoped_to_owner_witness :
    ({ fxSess with id := 20, userId := 2 } : Session) ∈ fxDbScope.sessions ∧ (1 : Nat) ≠ 2 ∧
    DeleteSession fxDbScope 1 20 = (fxDbScope, .ok ()) ∧
    BlockSession fxDbScope 1 20 = (fxDbScope, .ok ()) :=
  have h := session_ops_scoped_to_owner fxDbScope 1 2 20 { fxSess with id := 20, userId := 2 }
    (by decide) rfl rfl (by decide) (by decide)
  ⟨by decide, by decide, h.1, h.2⟩

/-- C7 counterexample: user 1 deletes or blocks session 20, which belongs
to user 2; the store is untouched but the outcome is plain success
(nil error), indistinguishable from a successful deletion, not a
not-found-style outcome as the claim states. -/
theorem deleteSession_cross_user_counterexample :
    DeleteSession fxDbScope 1 20 = (fxDbScope, .ok ()) ∧
    BlockSession fxDbScope 1 20 = (fxDbScope, .ok ()) ∧
    isOkE (DeleteSession fxDbScope 1 20).2 = true ∧
    fxDbScope.sessions.length = 1 := ⟨rfl, rfl, rfl, rfl⟩

/-- C1 counterexample: fxTok was issued at second 100 and the refresh
runs in the same second, so the minted refresh token serializes to the
same claims (the codec is a pure function of secret, claims and time at
second precision) and the rotated session stores a token equal to the
old one.  The refresh succeeds, yet a subsequent RefreshToken call with
the old refresh token also succeeds, refuting the claim that the old
token always fails after a successful refresh. -/
theorem refresh_rotation_same_second_counterexample :
    isOkE (RefreshToken fxCfgOff fxDb 100 fxTok fxMd).2 = true ∧
    isOkE (RefreshToken fxCfgOff (RefreshToken fxCfgOff fxDb 100 fxTok fxMd).1 101 fxTok fxMd).2 = true :=
  ⟨rfl, rfl⟩

/-- C1 (amended): rotation holds provided every stored session token,
the presented one included, was issued strictly before the refresh time
(the counterexample shows a refresh in the very second of issuance mints
a byte-identical token, making the old token valid again).  Under that
proviso, after a successful RefreshToken the old session row is gone and
a new row holds the new refresh token, so the old token fails every
subsequent RefreshToken call, while the new refresh token succeeds at
any strictly later time before its expiry, and after that single use it
fails every further call.  Hypotheses: the unique index on the token
column (Nodup) and the primary-key lookup are store invariants. -/
theorem refreshToken_rotation (cfg : Config) (db db1 : DBState) (now1 : Nat) (tok : Token)
    (md1 : SessionMetadata) (resp : AuthResponse)
    (huniq : (db.sessions.map Session.token).Nodup)
    (hpast : ∀ s ∈ db.sessions, s.token.claims.issuedAt < now1)
    (h1 : RefreshToken cfg db now1 tok md1 = (db1, .ok resp)) :
    (∀ now3 md3, isOkE (RefreshToken cfg db1 now3 tok md3).2 = false) ∧
    (∀ newR, resp.refreshToken = some newR →
      ∀ now2 md2, now1 < now2 → now2 < now1 + cfg.refreshExpirySec →
        isOkE (RefreshToken cfg db1 now2 newR md2).2 = true ∧
        ∀ now4 md4,
          isOkE (RefreshToken cfg (RefreshToken cfg db1 now2 newR md2).1 now4 newR md4).2 = false) := by
  unfold RefreshToken at h1
  cases hv : ValidateToken cfg now1 tok with
  | error e => rw [hv] at h1; simp at h1
  | ok claims =>
  rw [hv] at h1
  dsimp only at h1
  cases hl : sessionLookup db now1 tok with
  | none => rw [hl] at h1; simp at h1
  | some stored =>
  rw [hl] at h1
  dsimp only at h1
  cases hp : GetProfileWithRole db claims.userId with
  | error e => rw [hp] at h1; simp at h1
  | ok prof =>
  rw [hp] at h1
  dsimp only at h1
  set pair := GenerateTokenPair cfg now1 claims.userId claims.email (roleSlugOf prof.role)
    (permissionsOf prof.role) with hpairdef
  rcases hs : saveSession cfg (deleteSessionRow db stored.id) now1 claims.userId pair.2 md1
    with ⟨dbS, rS⟩
  rw [hs] at h1
  cases rS with
  | error e => simp at h1
  | ok uu =>
  simp only [Prod.mk.injEq, Except.ok.injEq] at h1
  obtain ⟨hdb1, hresp⟩ := h1
  subst hdb1
  subst hresp
  -- invert the session insert
  unfold saveSession at hs
  by_cases hany : ((deleteSessionRow db stored.id).sessions.any (fun s => s.token == pair.2)) = true
  · rw [if_pos hany] at hs
    simp at hs
  · rw [if_neg hany] at hs
    simp only [Prod.mk.injEq] at hs
    obtain ⟨hdbS, -⟩ := hs
    have hsessions : dbS.sessions = db.sessions.filter (fun s => s.id != stored.id) ++
        [{ id := db.nextSessionId, userId := claims.userId, token := pair.2,
           ipAddress := md1.ipAddress, userAgent := md1.userAgent, deviceId := md1.deviceId,
           isBlocked := false, expiresAt := now1 + cfg.refreshExpirySec, lastActive := now1 }] := by
      rw [← hdbS]
      rfl
    have husers : dbS.users = db.users := by
      rw [← hdbS]
      rfl
    have hroles : dbS.roles = db.roles := by
      rw [← hdbS]
      rfl
    set newSess : Session := { id := db.nextSessionId, userId := claims.userId, token := pair.2, ipAddress := md1.ipAddress, userAgent := md1.userAgent, deviceId := md1.deviceId, isBlocked := false, expiresAt := now1 + cfg.refreshExpirySec, lastActive := now1 } with hnewSess
    -- facts about the presented token and the minted one
    unfold sessionLookup at hl
    have hsmem : stored ∈ db.sessions := List.mem_of_find?_eq_some hl
    have hpred := List.find?_some hl
    simp only [Bool.and_eq_true] at hpred
    obtain ⟨⟨htokb, hexpb⟩, hblkb⟩ := hpred
    have hstokeq : stored.token = tok := eq_of_beq htokb
    have hiatold : tok.claims.issuedAt < now1 := by
      rw [← hstokeq]
      exact hpast stored hsmem
    have hpair2iat : pair.2.claims.issuedAt = now1 := by
      rw [hpairdef]
      rfl
    have hne_new_tok : pair.2 ≠ tok := by
      intro he
      rw [← he, hpair2iat] at hiatold
      exact Nat.lt_irrefl _ hiatold
    have hAfterNoTok : ∀ x ∈ dbS.sessions, x.token ≠ tok := by
      intro x hx
      rw [hsessions] at hx
      rcases List.mem_append.mp hx with hxf | hxs
      · have hxin := (List.mem_filter.mp hxf).1
        have hxid := (List.mem_filter.mp hxf).2
        intro hxt
        have hxeq : x = stored :=
          List.inj_on_of_nodup_map huniq hxin hsmem (by rw [hxt, hstokeq])
        rw [hxeq] at hxid
        simp at hxid
      · have hxeq : x = newSess := by
          simpa using hxs
        rw [hxeq, hnewSess]
        exact hne_new_tok
    refine ⟨fun now3 md3 => refreshToken_fails_of_no_session cfg dbS now3 tok md3 hAfterNoTok, ?_⟩
    intro newR hnewR now2 md2 h12 hexp
    have hnewR2 : some pair.2 = some newR := hnewR
    obtain rfl : pair.2 = newR := by injection hnewR2
    have hval2 : ValidateToken cfg now2 pair.2 =
        .ok (tokenClaims cfg now1 claims.userId claims.email (roleSlugOf prof.role) (permissionsOf prof.role) cfg.refreshExpirySec) := by
      rw [hpairdef]
      exact validateToken_generateToken cfg now1 now2 claims.userId claims.email
        (roleSlugOf prof.role) (permissionsOf prof.role) cfg.refreshExpirySec
        (Nat.le_of_lt h12) hexp
    have hfilterNoPair2 : ∀ x ∈ db.sessions.filter (fun s => s.id != stored.id),
        (x.token == pair.2) = false := by
      intro x hx
      have hxin := (List.mem_filter.mp hx).1
      apply beq_eq_false_iff_ne.mpr
      intro hxt
      have hxi := hpast x hxin
      rw [hxt, hpair2iat] at hxi
      exact Nat.lt_irrefl _ hxi
    have hlook2 : sessionLookup dbS now2 pair.2 = some newSess := by
      unfold sessionLookup
      rw [hsessions, List.find?_append]
      have hfirst : (db.sessions.filter (fun s => s.id != stored.id)).find?
          (fun s => s.token == pair.2 && decide (now2 < s.expiresAt) && s.isBlocked == false) = none := by
        rw [List.find?_eq_none]
        intro x hx
        simp [hfilterNoPair2 x hx]
      rw [hfirst]
      have hprednew : ((newSess.token == pair.2 && decide (now2 < newSess.expiresAt) && newSess.isBlocked == false)) = true := by
        rw [hnewSess]
        simp [hexp]
      rw [hnewSess] at hprednew ⊢
      simp [List.find?_cons, hprednew, hexp]
    have hprof2 : GetProfileWithRole dbS claims.userId = .ok prof := by
      rw [getProfileWithRole_congr db dbS husers hroles]
      exact hp
    set pair2 := GenerateTokenPair cfg now2 claims.userId claims.email (roleSlugOf prof.role) (permissionsOf prof.role) with hpair2def
    have hpair2iat2 : pair2.2.claims.issuedAt = now2 := by
      rw [hpair2def]
      rfl
    have hany2 : ((deleteSessionRow dbS newSess.id).sessions.any (fun s => s.token == pair2.2)) = false := by
      rw [List.any_eq_false]
      intro x hx hpx
      have hx2 : x ∈ dbS.sessions.filter (fun s => s.id != newSess.id) := hx
      have hxin := (List.mem_filter.mp hx2).1
      have hxid := (List.mem_filter.mp hx2).2
      rw [hsessions] at hxin
      rcases List.mem_append.mp hxin with hxf | hxs
      · have hxo := (List.mem_filter.mp hxf).1
        have hxi := hpast x hxo
        have hxeq : x.token = pair2.2 := eq_of_beq hpx
        rw [hxeq, hpair2iat2] at hxi
        omega
      · have hxeq : x = newSess := by simpa using hxs
        rw [hxeq] at hxid
        simp at hxid
    set newSess2 : Session := { id := dbS.nextSessionId, userId := claims.userId, token := pair2.2, ipAddress := md2.ipAddress, userAgent := md2.userAgent, deviceId := md2.deviceId, isBlocked := false, expiresAt := now2 + cfg.refreshExpirySec, lastActive := now2 } with hnewSess2
    have hrt2 : RefreshToken cfg dbS now2 pair.2 md2 =
        ({ dbS with sessions := dbS.sessions.filter (fun s => s.id != newSess.id) ++ [newSess2], nextSessionId := dbS.nextSessionId + 1 },
         .ok { accessToken := some pair2.1, refreshToken := some pair2.2, expiresIn := cfg.accessExpirySec, user := some prof }) := by
      unfold RefreshToken
      rw [hval2]
      dsimp only
      rw [hlook2]
      dsimp only [tokenClaims]
      rw [hprof2]
      dsimp only
      unfold saveSession
      rw [hany2]
      simp only [Bool.false_eq_true, if_false, Prod.mk.injEq]
      exact ⟨rfl, trivial⟩
    refine ⟨?_, ?_⟩
    · rw [hrt2]
      rfl
    · intro now4 md4
      rw [hrt2]
      apply refreshToken_fails_of_no_session
      intro x hx
      rcases List.mem_append.mp hx with hxf | hxs
      · have hxin := (List.mem_filter.mp hxf).1
        have hxid := (List.mem_filter.mp hxf).2
        rw [hsessions] at hxin
        rcases List.mem_append.mp hxin with hxo | hxn
        · have hxi := hpast x (List.mem_filter.mp hxo).1
          intro hxt
          rw [hxt, hpair2iat] at hxi
          exact Nat.lt_irrefl _ hxi
        · have hxeq : x = newSess := by simpa using hxn
          rw [hxeq] at hxid
          simp at hxid
      · have hxeq : x = newSess2 := by simpa using hxs
        rw [hxeq]
        intro ht
        have hteq : pair2.2 = pair.2 := ht
        have hia : pair2.2.claims.issuedAt = pair.2.claims.issuedAt := by rw [hteq]
        rw [hpair2iat2, hpair2iat] at hia
        omega

/-- Witness for refresh rotation at concrete inputs: the refresh runs at
second 101 on a token issued at second 100; the old token fails
afterwards and the newly minted refresh token succeeds once. -/
theorem refreshToken_rotation_witness :
    isOkE (RefreshToken fxCfgOff (RefreshToken fxCfgOff fxDb 101 fxTok fxMd).1 102 fxTok fxMd).2 = false ∧
    isOkE (RefreshToken fxCfgOff (RefreshToken fxCfgOff fxDb 101 fxTok fxMd).1 102
      (GenerateTokenPair fxCfgOff 101 1 "ann@x.com" "user" ["read"]).2 fxMd).2 = true :=
  have h := refreshToken_rotation fxCfgOff fxDb (RefreshToken fxCfgOff fxDb 101 fxTok fxMd).1 101 fxTok fxMd
    { accessToken := some (GenerateTokenPair fxCfgOff 101 1 "ann@x.com" "user" ["read"]).1,
      refreshToken := some (GenerateTokenPair fxCfgOff 101 1 "ann@x.com" "user" ["read"]).2,
      expiresIn := fxCfgOff.accessExpirySec, user := some fxProfAnn }
    (by decide) (by decide) rfl
  ⟨h.1 102 fxMd,
   (h.2 (GenerateTokenPair fxCfgOff 101 1 "ann@x.com" "user" ["read"]).2 rfl 102 fxMd (by decide) (by decide)).1⟩

/-- RefreshToken is exactly its read phase followed by its write phase;
this ties the two phase definitions to the source method. -/
theorem refreshToken_eq_phases (cfg : Config) (db : DBState) (now : Nat) (tok : Token)
    (md : SessionMetadata) :
    RefreshToken cfg db now tok md =
      match refreshPhase1 cfg db now tok with
      | .error e => (db, .error e)
      | .ok x => refreshPhase2 cfg db now x.1 x.2.1 x.2.2 md := by
  unfold RefreshToken refreshPhase1 refreshPhase2
  cases hv : ValidateToken cfg now tok with
  | error e => rfl
  | ok claims =>
    dsimp only
    cases hl : sessionLookup db now tok with
    | none => rfl
    | some stored =>
      dsimp only
      cases hp : GetProfileWithRole db claims.userId with
      | error e => rfl
      | ok prof => rfl

/-- C8: two RefreshToken calls race on the same refresh token: both
complete the read phase (validation, session lookup, profile load)
against the same store snapshot at seconds 101 and 102, then both write
phases run in turn and both return success, leaving two fresh sessions.
The delete of the old row (s.db.Delete with its result discarded) is not
the conditional delete with a zero-rows-affected rejection that the claim
describes: the caller whose delete removed nothing is still issued a new
session instead of failing with SessionNotFoundOrBlocked. -/
theorem refresh_race_issues_two_sessions :
    refreshPhase1 fxCfgOff fxDb 101 fxTok = .ok (fxTok.claims, fxSess, fxProfAnn) ∧
    refreshPhase1 fxCfgOff fxDb 102 fxTok = .ok (fxTok.claims, fxSess, fxProfAnn) ∧
    isOkE (refreshPhase2 fxCfgOff fxDb 101 fxTok.claims fxSess fxProfAnn fxMd).2 = true ∧
    isOkE (refreshPhase2 fxCfgOff (refreshPhase2 fxCfgOff fxDb 101 fxTok.claims fxSess fxProfAnn fxMd).1
      102 fxTok.claims fxSess fxProfAnn fxMd).2 = true ∧
    (refreshPhase2 fxCfgOff (refreshPhase2 fxCfgOff fxDb 101 fxTok.claims fxSess fxProfAnn fxMd).1
      102 fxTok.claims fxSess fxProfAnn fxMd).1.sessions.length = 2 :=
  ⟨rfl, rfl, rfl, rfl, rfl⟩

end GoBoilerplate
